import Mathlib

/-!
Shallow embedding of the ROI-simulator server core (`server/index.js`).

JavaScript finite doubles are modelled as rationals (`ℚ`); a JS number that
may be non-finite (`NaN` / `±Infinity`) is modelled as `Option ℚ` with `none`
for the non-finite case.  `Number(value)` applied to a raw JSON field either
yields a finite number or a non-finite one, which `asNumber` replaces by its
fallback, so a raw field is modelled by `RawVal` below.  `toFixed(2)` rounds
to the nearest hundredth, ties toward `+∞` (ECMAScript picks the larger
candidate integer), modelled by `round2`.
-/

namespace ReturnInvest

/-- A JavaScript number as the server core sees it: `some q` is a finite
double (modelled exactly as a rational), `none` is a non-finite value
(`NaN` or `±Infinity`), for which `Number.isFinite` is `false`. -/
abbrev JSNum := Option ℚ

/-- A raw JSON field value, classified by what `Number(value)` returns:
the field is absent (`missing`, JS coerces `undefined` to `NaN`), present but
coercing to a non-finite number (`nan`, e.g. the string `"abc"`), or coercing
to the finite number `q` (numbers and numeric strings). -/
inductive RawVal
  | missing
  | nan
  | num (q : ℚ)
deriving DecidableEq

/-- The raw request body fields the validator reads.  `scenario_name` is
`some s` when the raw value is the string `s` and `none` when it is absent or
not a string (the `typeof body.scenario_name === 'string'` check). -/
structure RawBody where
  scenario_name : Option String
  monthly_invoice_volume : RawVal
  num_ap_staff : RawVal
  avg_hours_per_invoice : RawVal
  hourly_wage : RawVal
  error_rate_manual : RawVal
  error_cost : RawVal
  time_horizon_months : RawVal
  one_time_implementation_cost : RawVal
deriving DecidableEq

/-- `asNumber(value, fallback)` from `server/index.js`: `Number(value)` when
finite, else the fallback. -/
def asNumber (value : RawVal) (fallback : JSNum) : JSNum :=
  match value with
  | .num q => some q
  | _ => fallback

/-- `clamp(value, min, max) = Math.min(Math.max(value, min), max)` on finite
numbers. -/
def clamp (value lo hi : ℚ) : ℚ :=
  min (max value lo) hi

/-- `clamp` lifted to a possibly non-finite number: `Math.max(NaN, lo)` and
`Math.min(NaN, hi)` are both `NaN`, so `none` propagates. -/
def oClamp (v : JSNum) (lo hi : ℚ) : JSNum :=
  v.map (fun q => clamp q lo hi)

/-- The normalized inputs record built by `validateInputs`.  Numeric fields
are `JSNum` because a required field that failed to parse is carried as the
`NaN` sentinel (`none`), not silently as zero. -/
structure NormInputs where
  scenario_name : String
  monthly_invoice_volume : JSNum
  num_ap_staff : JSNum
  avg_hours_per_invoice : JSNum
  hourly_wage : JSNum
  error_rate_manual : JSNum
  error_cost : JSNum
  time_horizon_months : JSNum
  one_time_implementation_cost : JSNum
deriving DecidableEq

/-- The value part of `reqNum(name)` inside `validateInputs`:
`asNumber(body[name], NaN)`. -/
def reqNumVal (v : RawVal) : JSNum :=
  asNumber v none

/-- The error part of `reqNum(name)`: the message pushed when the parsed
value is non-finite or negative (`!Number.isFinite(v) || v < 0`). -/
def reqNumErrs (name : String) (v : RawVal) : List String :=
  match asNumber v none with
  | none => [name ++ " must be a non-negative number"]
  | some q => if q < 0 then [name ++ " must be a non-negative number"] else []

/-- `validateInputs(body)` from `server/index.js`: builds the normalized
record and the accumulated error list, in the source's push order
(the five `reqNum` fields in record order, then the `error_rate_manual`
finiteness check, then the `time_horizon_months` check). -/
def validateInputs (body : RawBody) : NormInputs × List String :=
  let inputs : NormInputs :=
    { scenario_name := body.scenario_name.getD ""
      monthly_invoice_volume := reqNumVal body.monthly_invoice_volume
      num_ap_staff := reqNumVal body.num_ap_staff
      avg_hours_per_invoice := reqNumVal body.avg_hours_per_invoice
      hourly_wage := reqNumVal body.hourly_wage
      error_rate_manual := oClamp (asNumber body.error_rate_manual none) 0 100
      error_cost := reqNumVal body.error_cost
      time_horizon_months := asNumber body.time_horizon_months (some 36)
      one_time_implementation_cost :=
        asNumber body.one_time_implementation_cost (some 0) }
  let errors : List String :=
    reqNumErrs "monthly_invoice_volume" body.monthly_invoice_volume ++
    reqNumErrs "num_ap_staff" body.num_ap_staff ++
    reqNumErrs "avg_hours_per_invoice" body.avg_hours_per_invoice ++
    reqNumErrs "hourly_wage" body.hourly_wage ++
    reqNumErrs "error_cost" body.error_cost ++
    (match inputs.error_rate_manual with
      | none => ["error_rate_manual must be a number between 0 and 100"]
      | some _ => []) ++
    (match inputs.time_horizon_months with
      | none => ["time_horizon_months must be > 0"]
      | some q => if q ≤ 0 then ["time_horizon_months must be > 0"] else [])
  (inputs, errors)

/-- A well-formed scenario input: every numeric field finite (what `simulate`
receives when validation reported no errors). -/
structure ScenarioInput where
  scenario_name : String
  monthly_invoice_volume : ℚ
  num_ap_staff : ℚ
  avg_hours_per_invoice : ℚ
  hourly_wage : ℚ
  error_rate_manual : ℚ
  error_cost : ℚ
  time_horizon_months : ℚ
  one_time_implementation_cost : ℚ
deriving DecidableEq

/-- Extract a well-formed `ScenarioInput` from a normalized record when all
numeric fields are finite. -/
def NormInputs.toScenario (i : NormInputs) : Option ScenarioInput :=
  match i.monthly_invoice_volume, i.num_ap_staff, i.avg_hours_per_invoice,
        i.hourly_wage, i.error_rate_manual, i.error_cost,
        i.time_horizon_months, i.one_time_implementation_cost with
  | some a, some b, some c, some d, some e, some f, some g, some h =>
      some ⟨i.scenario_name, a, b, c, d, e, f, g, h⟩
  | _, _, _, _, _, _, _, _ => none

/-- `INTERNAL.automated_cost_per_invoice`. -/
def automated_cost_per_invoice : ℚ := 0.20

/-- `INTERNAL.error_rate_auto` (percent). -/
def error_rate_auto : ℚ := 0.1

/-- `INTERNAL.min_roi_boost_factor`. -/
def min_roi_boost_factor : ℚ := 1.1

/-- `Number(x.toFixed(2))`: round to 2 decimal places.  ECMAScript `toFixed`
chooses the integer `n` with `n / 100` closest to `x`, the larger one on a
tie, i.e. ties round toward `+∞`. -/
def round2 (q : ℚ) : ℚ :=
  ((⌊q * 100 + 1 / 2⌋ : ℤ) : ℚ) / 100

/-- The local `labor_cost_manual` of `simulate`. -/
def labor_cost_manual (i : ScenarioInput) : ℚ :=
  i.num_ap_staff * i.hourly_wage * i.avg_hours_per_invoice *
    i.monthly_invoice_volume

/-- The local `auto_cost` of `simulate`. -/
def auto_cost (i : ScenarioInput) : ℚ :=
  i.monthly_invoice_volume * automated_cost_per_invoice

/-- The local `error_savings` of `simulate`. -/
def error_savings (i : ScenarioInput) : ℚ :=
  (i.error_rate_manual - error_rate_auto) * i.monthly_invoice_volume *
    i.error_cost / 100

/-- The local `monthly_savings` of `simulate` before rounding (after the
boost factor). -/
def monthly_savings_raw (i : ScenarioInput) : ℚ :=
  ((labor_cost_manual i + error_savings i) - auto_cost i) *
    min_roi_boost_factor

/-- The local `cumulative_savings` of `simulate` before rounding. -/
def cumulative_savings_raw (i : ScenarioInput) : ℚ :=
  monthly_savings_raw i * i.time_horizon_months

/-- The local `net_savings` of `simulate` before rounding. -/
def net_savings_raw (i : ScenarioInput) : ℚ :=
  cumulative_savings_raw i - i.one_time_implementation_cost

/-- The result record returned by `simulate`: all fields rounded to 2
decimals, `payback_months` null exactly when monthly savings are not
positive. -/
structure ROIResult where
  monthly_savings : ℚ
  cumulative_savings : ℚ
  net_savings : ℚ
  payback_months : Option ℚ
  roi_percentage : ℚ
deriving DecidableEq

/-- `simulate(inputs)` from `server/index.js`. -/
def simulate (inputs : ScenarioInput) : ROIResult :=
  let monthly_savings := monthly_savings_raw inputs
  let cumulative_savings := cumulative_savings_raw inputs
  let net_savings := net_savings_raw inputs
  let payback_months : Option ℚ :=
    if monthly_savings > 0 then
      some (inputs.one_time_implementation_cost / monthly_savings)
    else none
  let roi_percentage : ℚ :=
    if inputs.one_time_implementation_cost > 0 then
      (net_savings / inputs.one_time_implementation_cost) * 100
    else if cumulative_savings > 0 then 999 else 0
  { monthly_savings := round2 monthly_savings
    cumulative_savings := round2 cumulative_savings
    net_savings := round2 net_savings
    payback_months := payback_months.map round2
    roi_percentage := round2 roi_percentage }

/-- Whether a raw value triggers the `reqNum` error
(`!Number.isFinite(v) || v < 0`). -/
def reqBad (v : RawVal) : Bool :=
  match v with
  | .num q => decide (q < 0)
  | _ => true

/-- Whether a raw value triggers the `error_rate_manual` error (its numeric
coercion is non-finite, so the clamped value is still non-finite). -/
def rateBad (v : RawVal) : Bool :=
  match v with
  | .num _ => false
  | _ => true

/-- Whether a raw value triggers the `time_horizon_months` error (it parses
to a finite number that is `≤ 0`; a non-parsing value falls back to 36 and
never errors). -/
def thBad (v : RawVal) : Bool :=
  match v with
  | .num q => decide (q ≤ 0)
  | _ => false

/-- The `reqNum` error message for a field. -/
def reqMsg (name : String) : String :=
  name ++ " must be a non-negative number"

/-- The `error_rate_manual` error message. -/
def rateMsg : String :=
  "error_rate_manual must be a number between 0 and 100"

/-- The `time_horizon_months` error message. -/
def thMsg : String :=
  "time_horizon_months must be > 0"

/-- Response of `POST /simulate`: HTTP 400 with the accumulated error list,
or HTTP 200 with the computed result. -/
inductive SimResponse where
  | badRequest (errors : List String)
  | ok (result : ROIResult)
deriving DecidableEq

/-- The `POST /simulate` route: validate, reject with the full error list on
any error, otherwise respond with `simulate` on the normalized record.  The
`none` arm is unreachable: when the error list is empty every numeric field
of the normalized record is finite (`validateInputs_toScenario_isSome`). -/
def postSimulate (body : RawBody) : SimResponse :=
  let v := validateInputs body
  if v.2.isEmpty then
    match v.1.toScenario with
    | some s => .ok (simulate s)
    | none => .badRequest v.2
  else .badRequest v.2

/-- A persisted scenario document.  The generated immutable id is modelled
as a natural number. -/
structure Scenario where
  id : ℕ
  scenario_name : String
  inputs : NormInputs
  results : ROIResult
deriving DecidableEq

/-- Response of `POST /scenarios`: HTTP 400 with the error list, or HTTP 200
with `{id, scenario_name}`. -/
inductive SaveResponse where
  | badRequest (errors : List String)
  | ok (id : ℕ) (scenario_name : String)
deriving DecidableEq

/-- The `POST /scenarios` route over an in-memory store (newest first):
validate, compute `simulate`, pick the submitted name or the generated
default `"Scenario {count+1}"`, and persist the inputs (with the final name
written back into them, as the source does) together with the results.  The
fresh id is modelled as the current store length.  The `none` arm is
unreachable as in `postSimulate`. -/
def postScenarios (store : List Scenario) (body : RawBody) :
    SaveResponse × List Scenario :=
  let v := validateInputs body
  if v.2.isEmpty then
    match v.1.toScenario with
    | some s =>
        let results := simulate s
        let trimmed := v.1.scenario_name.trim
        let scenarioName :=
          if trimmed = "" then "Scenario " ++ toString (store.length + 1)
          else trimmed
        let doc : Scenario :=
          { id := store.length
            scenario_name := scenarioName
            inputs := { v.1 with scenario_name := scenarioName }
            results := results }
        (.ok doc.id doc.scenario_name, doc :: store)
    | none => (.badRequest v.2, store)
  else (.badRequest v.2, store)

/-- `GET /scenarios/:id`: look a scenario up by id. -/
def getById (store : List Scenario) (i : ℕ) : Option Scenario :=
  store.find? (fun d => d.id == i)

/-- The canonical scenario of the spec's concrete test. -/
def canonicalInput : ScenarioInput :=
  { scenario_name := ""
    monthly_invoice_volume := 2000
    num_ap_staff := 3
    avg_hours_per_invoice := 0.17
    hourly_wage := 30
    error_rate_manual := 0.5
    error_cost := 100
    time_horizon_months := 36
    one_time_implementation_cost := 50000 }

/-- `asNumber` of the PostgreSQL server variant (second half of
`server/index.js`), textually identical to the MongoDB variant's. -/
def pg_asNumber (value : RawVal) (fallback : JSNum) : JSNum :=
  match value with
  | .num q => some q
  | _ => fallback

/-- `clamp` of the PostgreSQL server variant. -/
def pg_clamp (value lo hi : ℚ) : ℚ :=
  min (max value lo) hi

/-- `clamp` of the PostgreSQL variant lifted to a possibly non-finite
number, as in `oClamp`. -/
def pg_oClamp (v : JSNum) (lo hi : ℚ) : JSNum :=
  v.map (fun q => pg_clamp q lo hi)

/-- The value part of the PostgreSQL variant's `reqNum`. -/
def pg_reqNumVal (v : RawVal) : JSNum :=
  pg_asNumber v none

/-- The error part of the PostgreSQL variant's `reqNum`. -/
def pg_reqNumErrs (name : String) (v : RawVal) : List String :=
  match pg_asNumber v none with
  | none => [name ++ " must be a non-negative number"]
  | some q => if q < 0 then [name ++ " must be a non-negative number"] else []

/-- `validateInputs` of the PostgreSQL server variant. -/
def pg_validateInputs (body : RawBody) : NormInputs × List String :=
  let inputs : NormInputs :=
    { scenario_name := body.scenario_name.getD ""
      monthly_invoice_volume := pg_reqNumVal body.monthly_invoice_volume
      num_ap_staff := pg_reqNumVal body.num_ap_staff
      avg_hours_per_invoice := pg_reqNumVal body.avg_hours_per_invoice
      hourly_wage := pg_reqNumVal body.hourly_wage
      error_rate_manual := pg_oClamp (pg_asNumber body.error_rate_manual none) 0 100
      error_cost := pg_reqNumVal body.error_cost
      time_horizon_months := pg_asNumber body.time_horizon_months (some 36)
      one_time_implementation_cost :=
        pg_asNumber body.one_time_implementation_cost (some 0) }
  let errors : List String :=
    pg_reqNumErrs "monthly_invoice_volume" body.monthly_invoice_volume ++
    pg_reqNumErrs "num_ap_staff" body.num_ap_staff ++
    pg_reqNumErrs "avg_hours_per_invoice" body.avg_hours_per_invoice ++
    pg_reqNumErrs "hourly_wage" body.hourly_wage ++
    pg_reqNumErrs "error_cost" body.error_cost ++
    (match inputs.error_rate_manual with
      | none => ["error_rate_manual must be a number between 0 and 100"]
      | some _ => []) ++
    (match inputs.time_horizon_months with
      | none => ["time_horizon_months must be > 0"]
      | some q => if q ≤ 0 then ["time_horizon_months must be > 0"] else [])
  (inputs, errors)

/-- `INTERNAL.automated_cost_per_invoice` of the PostgreSQL variant. -/
def pg_automated_cost_per_invoice : ℚ := 0.20

/-- `INTERNAL.error_rate_auto` of the PostgreSQL variant. -/
def pg_error_rate_auto : ℚ := 0.1

/-- `INTERNAL.min_roi_boost_factor` of the PostgreSQL variant. -/
def pg_min_roi_boost_factor : ℚ := 1.1

/-- `simulate` of the PostgreSQL server variant. -/
def pg_simulate (inputs : ScenarioInput) : ROIResult :=
  let labor_cost_manual := inputs.num_ap_staff * inputs.hourly_wage *
    inputs.avg_hours_per_invoice * inputs.monthly_invoice_volume
  let auto_cost := inputs.monthly_invoice_volume * pg_automated_cost_per_invoice
  let error_savings := (inputs.error_rate_manual - pg_error_rate_auto) *
    inputs.monthly_invoice_volume * inputs.error_cost / 100
  let monthly_savings :=
    ((labor_cost_manual + error_savings) - auto_cost) * pg_min_roi_boost_factor
  let cumulative_savings := monthly_savings * inputs.time_horizon_months
  let net_savings := cumulative_savings - inputs.one_time_implementation_cost
  let payback_months : Option ℚ :=
    if monthly_savings > 0 then
      some (inputs.one_time_implementation_cost / monthly_savings)
    else none
  let roi_percentage : ℚ :=
    if inputs.one_time_implementation_cost > 0 then
      (net_savings / inputs.one_time_implementation_cost) * 100
    else if cumulative_savings > 0 then 999 else 0
  { monthly_savings := round2 monthly_savings
    cumulative_savings := round2 cumulative_savings
    net_savings := round2 net_savings
    payback_months := payback_months.map round2
    roi_percentage := round2 roi_percentage }

/-- A well-formed raw request body with integer-valued fields, used by the
witness theorems. -/
def simpleBody : RawBody :=
  { scenario_name := some "demo"
    monthly_invoice_volume := .num 1000
    num_ap_staff := .num 2
    avg_hours_per_invoice := .num 1
    hourly_wage := .num 20
    error_rate_manual := .num 1
    error_cost := .num 50
    time_horizon_months := .num 12
    one_time_implementation_cost := .num 4000 }

/-- `simpleBody` with an out-of-range numeric `error_rate_manual`. -/
def clampBody : RawBody :=
  { simpleBody with error_rate_manual := .num 150 }

/-- `simpleBody` with a non-numeric `error_rate_manual`. -/
def nanRateBody : RawBody :=
  { simpleBody with error_rate_manual := .nan }

/-- `simpleBody` with a negative `monthly_invoice_volume`. -/
def negVolumeBody : RawBody :=
  { simpleBody with monthly_invoice_volume := .num (-3) }

/-- `simpleBody` with a non-numeric `time_horizon_months`. -/
def nanHorizonBody : RawBody :=
  { simpleBody with time_horizon_months := .nan }

/-- `simpleBody` with a non-positive numeric `time_horizon_months`. -/
def zeroHorizonBody : RawBody :=
  { simpleBody with time_horizon_months := .num 0 }

/-- `simpleBody` with a negative `one_time_implementation_cost`. -/
def negCostBody : RawBody :=
  { simpleBody with one_time_implementation_cost := .num (-5) }

/-- The well-formed scenario extracted from `simpleBody` by the validator
(its `error_rate_manual` goes through `clamp`). -/
def simpleScenario : ScenarioInput :=
  { scenario_name := "demo"
    monthly_invoice_volume := 1000
    num_ap_staff := 2
    avg_hours_per_invoice := 1
    hourly_wage := 20
    error_rate_manual := clamp 1 0 100
    error_cost := 50
    time_horizon_months := 12
    one_time_implementation_cost := 4000 }

/-- A well-formed scenario with a negative one-time implementation cost. -/
def negCostScenario : ScenarioInput :=
  { scenario_name := ""
    monthly_invoice_volume := 1000
    num_ap_staff := 2
    avg_hours_per_invoice := 1
    hourly_wage := 20
    error_rate_manual := 1
    error_cost := 50
    time_horizon_months := 12
    one_time_implementation_cost := -5 }

/-- The error list of `reqNum` as an `if` on the `reqBad` flag. -/
lemma reqNumErrs_eq_ite (name : String) (v : RawVal) :
    reqNumErrs name v = if reqBad v then [reqMsg name] else [] := by
  cases v <;> simp [reqNumErrs, reqBad, reqMsg, asNumber]

/-- The accumulated error list of `validateInputs` in flag normal form. -/
lemma validateInputs_errors (b : RawBody) :
    (validateInputs b).2 =
      (if reqBad b.monthly_invoice_volume then
        [reqMsg "monthly_invoice_volume"] else []) ++
      (if reqBad b.num_ap_staff then [reqMsg "num_ap_staff"] else []) ++
      (if reqBad b.avg_hours_per_invoice then
        [reqMsg "avg_hours_per_invoice"] else []) ++
      (if reqBad b.hourly_wage then [reqMsg "hourly_wage"] else []) ++
      (if reqBad b.error_cost then [reqMsg "error_cost"] else []) ++
      (if rateBad b.error_rate_manual then [rateMsg] else []) ++
      (if thBad b.time_horizon_months then [thMsg] else []) := by
  rcases b with ⟨sn, f1, f2, f3, f4, f5, f6, f7, f8⟩
  simp only [validateInputs, reqNumErrs_eq_ite, List.append_assoc]
  cases f5 <;> cases f7 <;>
    simp [rateBad, thBad, oClamp, asNumber, rateMsg, thMsg,
      show ¬((36 : ℚ) ≤ 0) by norm_num]

/-- Membership in a conditional singleton list. -/
lemma mem_ite_singleton {c : Prop} [Decidable c] {x m : String} :
    (m ∈ (if c then [x] else [])) ↔ c ∧ m = x := by
  split_ifs with h <;> simp [h]

/-- Which messages the accumulated error list contains. -/
lemma mem_validateInputs_errors (b : RawBody) (m : String) :
    m ∈ (validateInputs b).2 ↔
      (reqBad b.monthly_invoice_volume ∧ m = reqMsg "monthly_invoice_volume") ∨
      (reqBad b.num_ap_staff ∧ m = reqMsg "num_ap_staff") ∨
      (reqBad b.avg_hours_per_invoice ∧ m = reqMsg "avg_hours_per_invoice") ∨
      (reqBad b.hourly_wage ∧ m = reqMsg "hourly_wage") ∨
      (reqBad b.error_cost ∧ m = reqMsg "error_cost") ∨
      (rateBad b.error_rate_manual ∧ m = rateMsg) ∨
      (thBad b.time_horizon_months ∧ m = thMsg) := by
  rw [validateInputs_errors]
  simp only [List.mem_append, mem_ite_singleton, or_assoc]

/-- The `reqBad` flag spelled out on the raw value. -/
lemma reqBad_iff (v : RawVal) :
    reqBad v = true ↔
      v = .missing ∨ v = .nan ∨ ∃ q, v = .num q ∧ q < 0 := by
  cases v <;> simp [reqBad]

/-- The normalized value of a required field is the invalid sentinel exactly
when the raw value did not parse to a finite number. -/
lemma reqNumVal_eq_none_iff (v : RawVal) :
    reqNumVal v = none ↔ v = .missing ∨ v = .nan := by
  cases v <;> simp [reqNumVal, asNumber]

/-- C1: on the canonical input, `simulate` returns exactly the documented
figures: monthly savings 34100.00, cumulative savings 1227600.00, net
savings 1177600.00, payback 1.47 months, ROI 2355.20 percent. -/
theorem claim1_canonical_scenario :
    simulate canonicalInput =
      { monthly_savings := 34100
        cumulative_savings := 1227600
        net_savings := 1177600
        payback_months := some 1.47
        roi_percentage := 2355.20 } := by
  simp only [simulate, canonicalInput, monthly_savings_raw,
    cumulative_savings_raw, net_savings_raw, labor_cost_manual, auto_cost,
    error_savings, automated_cost_per_invoice, error_rate_auto,
    min_roi_boost_factor, round2]
  norm_num [round2]

/-- C2: the ROI rule of `simulate`: when the one-time implementation cost is
positive, the ROI percentage is `(net_savings / cost) * 100` rounded to two
decimals; otherwise it is the sentinel 999 when cumulative savings are
positive and 0 when they are not. -/
theorem claim2_roi_rule (s : ScenarioInput) :
    (simulate s).roi_percentage =
      if s.one_time_implementation_cost > 0 then
        round2 ((net_savings_raw s / s.one_time_implementation_cost) * 100)
      else if cumulative_savings_raw s > 0 then (999 : ℚ) else 0 := by
  simp only [simulate]
  split_ifs <;> norm_num [round2]

/-- C3: `simulate` returns a null payback exactly when the unrounded monthly
savings are not positive, and otherwise returns the one-time cost divided by
the unrounded monthly savings, rounded to two decimals. -/
theorem claim3_payback_rule (s : ScenarioInput) :
    ((simulate s).payback_months = none ↔ monthly_savings_raw s ≤ 0) ∧
    (simulate s).payback_months =
      (if monthly_savings_raw s > 0 then
        some (round2 (s.one_time_implementation_cost / monthly_savings_raw s))
      else none) := by
  simp only [simulate]
  constructor
  · split_ifs with h
    · simp [not_le.mpr h]
    · simp [not_lt.mp h]
  · split_ifs <;> simp

/-- C9: the validation and calculation core of the PostgreSQL server variant
is extensionally equal to the MongoDB variant's: both `validateInputs` and
`simulate` agree on every input. -/
theorem claim9_backend_equivalence :
    (∀ body : RawBody, pg_validateInputs body = validateInputs body) ∧
    (∀ s : ScenarioInput, pg_simulate s = simulate s) :=
  ⟨fun _ => rfl, fun _ => rfl⟩

/-- C10: a finite negative `one_time_implementation_cost` is accepted as is:
the validator records it without adding any error (the error list does not
depend on that field at all), and `simulate` then takes the zero-cost branch
of the ROI rule: 999 when cumulative savings are positive, 0 otherwise. -/
theorem claim10_negative_cost (b : RawBody) (s : ScenarioInput) :
    (∀ q : ℚ, b.one_time_implementation_cost = .num q →
      (validateInputs b).1.one_time_implementation_cost = some q) ∧
    (∀ v : RawVal,
      (validateInputs { b with one_time_implementation_cost := v }).2 =
        (validateInputs b).2) ∧
    (s.one_time_implementation_cost < 0 →
      (simulate s).roi_percentage =
        if cumulative_savings_raw s > 0 then (999 : ℚ) else 0) := by
  refine ⟨fun q hq => ?_, fun v => rfl, fun hneg => ?_⟩
  · simp [validateInputs, asNumber, hq]
  · simp only [simulate]
    rw [if_neg (by exact not_lt.mpr hneg.le)]
    split_ifs <;> norm_num [round2]

/-- C4: the validator treats `error_rate_manual` asymmetrically: a raw value
parsing to a finite number is silently clamped into `[0,100]` with no error,
while a raw value that does not parse to a finite number produces the error
message and the normalized record still carries the invalid sentinel. -/
theorem claim4_clamp_asymmetry (b : RawBody) :
    (∀ q : ℚ, b.error_rate_manual = .num q →
      (validateInputs b).1.error_rate_manual = some (clamp q 0 100) ∧
      rateMsg ∉ (validateInputs b).2) ∧
    ((b.error_rate_manual = .missing ∨ b.error_rate_manual = .nan) →
      rateMsg ∈ (validateInputs b).2 ∧
      (validateInputs b).1.error_rate_manual = none) := by
  constructor
  · intro q hq
    constructor
    · simp [validateInputs, oClamp, asNumber, hq]
    · rw [mem_validateInputs_errors]
      simp [hq, rateBad, rateMsg, reqMsg, thMsg]
  · intro h
    constructor
    · rw [mem_validateInputs_errors]
      rcases h with h | h <;> simp [h, rateBad]
    · rcases h with h | h <;> simp [validateInputs, oClamp, asNumber, h]

/-- Witness for C4: `error_rate_manual = 150` is clamped to 100 without an
error, while a non-numeric `error_rate_manual` errors and stays invalid. -/
theorem claim4_clamp_asymmetry_witness :
    ((validateInputs clampBody).1.error_rate_manual = some (clamp 150 0 100) ∧
      rateMsg ∉ (validateInputs clampBody).2) ∧
    (rateMsg ∈ (validateInputs nanRateBody).2 ∧
      (validateInputs nanRateBody).1.error_rate_manual = none) :=
  ⟨(claim4_clamp_asymmetry clampBody).1 150 rfl,
   (claim4_clamp_asymmetry nanRateBody).2 (Or.inr rfl)⟩

/-- C5: for each of the five required fields, the validator reports
`"<field> must be a non-negative number"` exactly when the field is missing,
fails to parse to a finite number, or parses to a negative number, and the
normalized record carries the invalid sentinel (never a silent zero) exactly
when the field failed to parse. -/
theorem claim5_required_fields (b : RawBody) :
    ((reqMsg "monthly_invoice_volume" ∈ (validateInputs b).2 ↔
        b.monthly_invoice_volume = .missing ∨ b.monthly_invoice_volume = .nan ∨
          ∃ q, b.monthly_invoice_volume = .num q ∧ q < 0) ∧
      ((validateInputs b).1.monthly_invoice_volume = none ↔
        b.monthly_invoice_volume = .missing ∨ b.monthly_invoice_volume = .nan)) ∧
    ((reqMsg "num_ap_staff" ∈ (validateInputs b).2 ↔
        b.num_ap_staff = .missing ∨ b.num_ap_staff = .nan ∨
          ∃ q, b.num_ap_staff = .num q ∧ q < 0) ∧
      ((validateInputs b).1.num_ap_staff = none ↔
        b.num_ap_staff = .missing ∨ b.num_ap_staff = .nan)) ∧
    ((reqMsg "avg_hours_per_invoice" ∈ (validateInputs b).2 ↔
        b.avg_hours_per_invoice = .missing ∨ b.avg_hours_per_invoice = .nan ∨
          ∃ q, b.avg_hours_per_invoice = .num q ∧ q < 0) ∧
      ((validateInputs b).1.avg_hours_per_invoice = none ↔
        b.avg_hours_per_invoice = .missing ∨ b.avg_hours_per_invoice = .nan)) ∧
    ((reqMsg "hourly_wage" ∈ (validateInputs b).2 ↔
        b.hourly_wage = .missing ∨ b.hourly_wage = .nan ∨
          ∃ q, b.hourly_wage = .num q ∧ q < 0) ∧
      ((validateInputs b).1.hourly_wage = none ↔
        b.hourly_wage = .missing ∨ b.hourly_wage = .nan)) ∧
    ((reqMsg "error_cost" ∈ (validateInputs b).2 ↔
        b.error_cost = .missing ∨ b.error_cost = .nan ∨
          ∃ q, b.error_cost = .num q ∧ q < 0) ∧
      ((validateInputs b).1.error_cost = none ↔
        b.error_cost = .missing ∨ b.error_cost = .nan)) := by
  refine ⟨⟨?_, ?_⟩, ⟨?_, ?_⟩, ⟨?_, ?_⟩, ⟨?_, ?_⟩, ⟨?_, ?_⟩⟩ <;>
    first
      | (rw [mem_validateInputs_errors]
         simp [← reqBad_iff, reqMsg, rateMsg, thMsg])
      | simp [validateInputs, ← reqNumVal_eq_none_iff]

/-- A conditional singleton of a different message contributes no
occurrences. -/
lemma count_ite_singleton_ne {c : Prop} [Decidable c] {x m : String}
    (h : x ≠ m) :
    ((if c then [x] else []) : List String).count m = 0 := by
  rw [List.count_eq_zero]
  rw [mem_ite_singleton]
  exact fun hc => h hc.2.symm

/-- How often the `time_horizon_months` error message occurs in the
accumulated error list. -/
lemma count_thMsg (b : RawBody) :
    ((validateInputs b).2).count thMsg =
      if thBad b.time_horizon_months then 1 else 0 := by
  rw [validateInputs_errors]
  simp only [List.count_append]
  rw [count_ite_singleton_ne (by decide), count_ite_singleton_ne (by decide),
    count_ite_singleton_ne (by decide), count_ite_singleton_ne (by decide),
    count_ite_singleton_ne (by decide), count_ite_singleton_ne (by decide)]
  split_ifs <;> simp

/-- C6: a missing or non-numeric `time_horizon_months` resolves to the
default 36 and never triggers the `"time_horizon_months must be > 0"`
error; a finite value `≤ 0` adds exactly that error once. -/
theorem claim6_time_horizon (b : RawBody) :
    ((b.time_horizon_months = .missing ∨ b.time_horizon_months = .nan) →
      (validateInputs b).1.time_horizon_months = some 36 ∧
      thMsg ∉ (validateInputs b).2) ∧
    (∀ q : ℚ, b.time_horizon_months = .num q → q ≤ 0 →
      ((validateInputs b).2).count thMsg = 1) := by
  constructor
  · intro h
    constructor
    · rcases h with h | h <;> simp [validateInputs, asNumber, h]
    · rw [mem_validateInputs_errors]
      rcases h with h | h <;>
        simp [h, thBad, reqMsg, rateMsg, thMsg]
  · intro q hq hle
    rw [count_thMsg]
    simp [thBad, hq, hle]

/-- Witness for C6: a non-numeric horizon falls back to 36 with no error; a
zero horizon produces the error exactly once. -/
theorem claim6_time_horizon_witness :
    ((validateInputs nanHorizonBody).1.time_horizon_months = some 36 ∧
      thMsg ∉ (validateInputs nanHorizonBody).2) ∧
    ((validateInputs zeroHorizonBody).2).count thMsg = 1 :=
  ⟨(claim6_time_horizon nanHorizonBody).1 (Or.inr rfl),
   (claim6_time_horizon zeroHorizonBody).2 0 rfl (by decide)⟩

/-- A conditional singleton list is empty only when its condition fails. -/
lemma ite_singleton_eq_nil {c : Prop} [Decidable c] {x : String}
    (h : (if c then [x] else []) = []) : ¬c := by
  intro hc
  rw [if_pos hc] at h
  exact List.cons_ne_nil _ _ h

/-- A required field whose `reqBad` flag is off parsed to a finite number. -/
lemma reqNumVal_isSome_of_not_bad (v : RawVal) (h : ¬reqBad v = true) :
    ∃ q, reqNumVal v = some q := by
  cases v <;> simp_all [reqBad, reqNumVal, asNumber]

/-- An `error_rate_manual` whose `rateBad` flag is off clamps to a finite
number. -/
lemma oClamp_isSome_of_not_bad (v : RawVal) (h : ¬rateBad v = true) :
    ∃ q, oClamp (asNumber v none) 0 100 = some q := by
  cases v <;> simp_all [rateBad, oClamp, asNumber]

/-- A parse with a finite fallback always yields a finite number. -/
lemma asNumber_fallback_isSome (v : RawVal) (d : ℚ) :
    ∃ q, asNumber v (some d) = some q := by
  cases v <;> exact ⟨_, rfl⟩

/-- When validation reports no errors, every numeric field of the normalized
record is finite, so a well-formed `ScenarioInput` can be extracted. -/
lemma validateInputs_toScenario_isSome (b : RawBody)
    (h : (validateInputs b).2 = []) :
    ∃ s, (validateInputs b).1.toScenario = some s := by
  rw [validateInputs_errors] at h
  obtain ⟨h, h7⟩ := List.append_eq_nil.mp h
  obtain ⟨h, h6⟩ := List.append_eq_nil.mp h
  obtain ⟨h, h5⟩ := List.append_eq_nil.mp h
  obtain ⟨h, h4⟩ := List.append_eq_nil.mp h
  obtain ⟨h, h3⟩ := List.append_eq_nil.mp h
  obtain ⟨h1, h2⟩ := List.append_eq_nil.mp h
  obtain ⟨q1, hq1⟩ := reqNumVal_isSome_of_not_bad _ (ite_singleton_eq_nil h1)
  obtain ⟨q2, hq2⟩ := reqNumVal_isSome_of_not_bad _ (ite_singleton_eq_nil h2)
  obtain ⟨q3, hq3⟩ := reqNumVal_isSome_of_not_bad _ (ite_singleton_eq_nil h3)
  obtain ⟨q4, hq4⟩ := reqNumVal_isSome_of_not_bad _ (ite_singleton_eq_nil h4)
  obtain ⟨q5, hq5⟩ := reqNumVal_isSome_of_not_bad _ (ite_singleton_eq_nil h5)
  obtain ⟨q6, hq6⟩ := oClamp_isSome_of_not_bad _ (ite_singleton_eq_nil h6)
  obtain ⟨q7, hq7⟩ := asNumber_fallback_isSome b.time_horizon_months 36
  obtain ⟨q8, hq8⟩ :=
    asNumber_fallback_isSome b.one_time_implementation_cost 0
  have hv : (validateInputs b).1 =
      ⟨b.scenario_name.getD "", reqNumVal b.monthly_invoice_volume,
        reqNumVal b.num_ap_staff, reqNumVal b.avg_hours_per_invoice,
        reqNumVal b.hourly_wage,
        oClamp (asNumber b.error_rate_manual none) 0 100,
        reqNumVal b.error_cost, asNumber b.time_horizon_months (some 36),
        asNumber b.one_time_implementation_cost (some 0)⟩ := rfl
  refine ⟨⟨b.scenario_name.getD "", q1, q2, q3, q4, q6, q5, q7, q8⟩, ?_⟩
  rw [hv, hq1, hq2, hq3, hq4, hq5, hq6, hq7, hq8]
  rfl

/-- A nonempty list is not `isEmpty`. -/
lemma isEmpty_false_of_ne_nil {l : List String} (h : l ≠ []) :
    l.isEmpty = false := by
  cases l with
  | nil => exact absurd rfl h
  | cons a t => rfl

/-- C7: `POST /simulate` is all-or-nothing: a non-empty validation error
list yields a 400 carrying the complete list and no result; an empty list
yields a 200 carrying exactly `simulate` of the normalized record. -/
theorem claim7_simulate_route (b : RawBody) :
    ((validateInputs b).2 ≠ [] →
      postSimulate b = .badRequest (validateInputs b).2) ∧
    ((validateInputs b).2 = [] →
      ∃ s, (validateInputs b).1.toScenario = some s ∧
        postSimulate b = .ok (simulate s)) := by
  constructor
  · intro h
    simp only [postSimulate]
    rw [if_neg]
    simp [isEmpty_false_of_ne_nil h]
  · intro h
    obtain ⟨s, hs⟩ := validateInputs_toScenario_isSome b h
    refine ⟨s, hs, ?_⟩
    simp only [postSimulate]
    rw [if_pos (by rw [h]; rfl), hs]

/-- Witness for C7: a fully valid body reaches `simulate`; a body with a
negative volume is rejected with its error list. -/
theorem claim7_simulate_route_witness :
    (∃ s, (validateInputs simpleBody).1.toScenario = some s ∧
      postSimulate simpleBody = .ok (simulate s)) ∧
    postSimulate negVolumeBody =
      .badRequest (validateInputs negVolumeBody).2 :=
  ⟨(claim7_simulate_route simpleBody).2 rfl,
   (claim7_simulate_route negVolumeBody).1 (by decide)⟩

/-- Rewriting the name inside a normalized record only rewrites the name of
the extracted scenario. -/
lemma toScenario_setName (ni : NormInputs) (n : String) (s : ScenarioInput)
    (h : ni.toScenario = some s) :
    NormInputs.toScenario { ni with scenario_name := n } =
      some { s with scenario_name := n } := by
  rcases ni with ⟨sn, a1, a2, a3, a4, a5, a6, a7, a8⟩
  cases a1 <;> cases a2 <;> cases a3 <;> cases a4 <;> cases a5 <;>
    cases a6 <;> cases a7 <;> cases a8 <;>
    simp_all [NormInputs.toScenario]
  subst h
  simp

/-- `simulate` does not read the scenario name. -/
lemma simulate_setName (s : ScenarioInput) (n : String) :
    simulate { s with scenario_name := n } = simulate s := rfl

/-- C8: every scenario persisted by `POST /scenarios` satisfies the
invariant `results = simulate(inputs)` for the inputs stored with it, also
when the stored name was replaced by a generated default, and loading the
saved scenario by id returns exactly the stored document. -/
theorem claim8_scenario_invariant (store : List Scenario) (b : RawBody)
    (s : ScenarioInput) (h1 : (validateInputs b).2 = [])
    (h2 : (validateInputs b).1.toScenario = some s) :
    ∃ doc,
      postScenarios store b = (.ok doc.id doc.scenario_name, doc :: store) ∧
      doc.inputs.toScenario =
        some { s with scenario_name := doc.scenario_name } ∧
      doc.results = simulate { s with scenario_name := doc.scenario_name } ∧
      getById (doc :: store) doc.id = some doc := by
  refine ⟨{ id := store.length
            scenario_name :=
              if (validateInputs b).1.scenario_name.trim = "" then
                "Scenario " ++ toString (store.length + 1)
              else (validateInputs b).1.scenario_name.trim
            inputs :=
              { (validateInputs b).1 with
                scenario_name :=
                  if (validateInputs b).1.scenario_name.trim = "" then
                    "Scenario " ++ toString (store.length + 1)
                  else (validateInputs b).1.scenario_name.trim }
            results := simulate s }, ?_, ?_, ?_, ?_⟩
  · simp only [postScenarios]
    rw [if_pos (by rw [h1]; rfl), h2]
  · exact toScenario_setName _ _ _ h2
  · rfl
  · simp [getById, List.find?]

/-- Witness for C8: saving `simpleBody` into an empty store. -/
theorem claim8_scenario_invariant_witness :
    ∃ doc,
      postScenarios [] simpleBody = (.ok doc.id doc.scenario_name, [doc]) ∧
      doc.inputs.toScenario =
        some { simpleScenario with scenario_name := doc.scenario_name } ∧
      doc.results =
        simulate { simpleScenario with scenario_name := doc.scenario_name } ∧
      getById [doc] doc.id = some doc :=
  claim8_scenario_invariant [] simpleBody simpleScenario rfl rfl

/-- Witness for C10 at a concrete negative cost. -/
theorem claim10_negative_cost_witness :
    (validateInputs negCostBody).1.one_time_implementation_cost = some (-5) ∧
    (validateInputs
        { negCostBody with one_time_implementation_cost := .nan }).2 =
      (validateInputs negCostBody).2 ∧
    (simulate negCostScenario).roi_percentage =
      if cumulative_savings_raw negCostScenario > 0 then (999 : ℚ) else 0 :=
  ⟨(claim10_negative_cost negCostBody negCostScenario).1 (-5) rfl,
   (claim10_negative_cost negCostBody negCostScenario).2.1 .nan,
   (claim10_negative_cost negCostBody negCostScenario).2.2 (by decide)⟩

end ReturnInvest
